import Mathlib

/-!
# SDF text demo (src/App.js): shallow embedding and verified properties

The program is a single script: it loads a bitmap font, builds one text mesh
with a custom signed-distance-field shader, and on every frame copies the
control-panel parameters onto the mesh.

Conventions of the embedding.

* Numbers (JavaScript numbers and GLSL floats) are exact rationals. Rounding is
  not represented. A JavaScript division whose divisor is zero yields a
  non-finite number; that result is `none` in `Option ℚ`.
* GLSL built-ins (`clamp`, `smoothstep`, `mix`, vector constructors and the
  vector-by-scalar product) follow the GLSL ES language definition.
  `smoothstep` is undefined when `edge0 >= edge1`; that is `none`.
* Stateful code is explicit state passing: each assignment of the ticker
  callback is one record update, in source order.
* Collaborators outside the repository (layout provider, index generator, the
  engine getter `mesh.width`, the atlas texture) are fields of `Env`.
-/

namespace SdfText

/-! ## Vectors -/

/-- GLSL `vec2`. -/
structure Vec2 where
  x : ℚ
  y : ℚ
deriving DecidableEq

/-- GLSL `vec3`. -/
structure Vec3 where
  x : ℚ
  y : ℚ
  z : ℚ
deriving DecidableEq

/-- GLSL `vec4`; `w` is the alpha channel (`.a`). -/
structure Vec4 where
  x : ℚ
  y : ℚ
  z : ℚ
  w : ℚ
deriving DecidableEq

/-- Component-wise sum of two `vec3`. -/
def Vec3.add (a b : Vec3) : Vec3 := ⟨a.x + b.x, a.y + b.y, a.z + b.z⟩

/-- GLSL `vec3 * float`. -/
def Vec3.scale (a : Vec3) (k : ℚ) : Vec3 := ⟨a.x * k, a.y * k, a.z * k⟩

/-- GLSL `vec4 * float`. -/
def Vec4.scale (a : Vec4) (k : ℚ) : Vec4 := ⟨a.x * k, a.y * k, a.z * k, a.w * k⟩

/-- GLSL constructor `vec4(vec3, float)`. -/
def vec4_3_1 (v : Vec3) (w : ℚ) : Vec4 := ⟨v.x, v.y, v.z, w⟩

/-- GLSL constructor `vec4(vec2, float, float)`. -/
def vec4_2_1_1 (v : Vec2) (z w : ℚ) : Vec4 := ⟨v.x, v.y, z, w⟩

/-- GLSL constructor `vec4(float)`: the scalar in all four components. -/
def vec4_1 (s : ℚ) : Vec4 := ⟨s, s, s, s⟩

/-- The zero colour. -/
def Vec4.zero : Vec4 := ⟨0, 0, 0, 0⟩

/-! ## GLSL built-in functions -/

/-- GLSL `clamp(x, minVal, maxVal) = min(max(x, minVal), maxVal)`. -/
def clamp (x minVal maxVal : ℚ) : ℚ := min (max x minVal) maxVal

/-- GLSL `smoothstep(edge0, edge1, x)`: with
`t = clamp((x - edge0) / (edge1 - edge0), 0, 1)` the value `t * t * (3 - 2 * t)`;
undefined (`none`) when `edge0 >= edge1`. -/
def smoothstep (edge0 edge1 x : ℚ) : Option ℚ :=
  if edge0 < edge1 then
    let t := clamp ((x - edge0) / (edge1 - edge0)) 0 1
    some (t * t * (3 - 2 * t))
  else
    none

/-- GLSL `mix(x, y, a) = x * (1 - a) + y * a` on `vec3` with a scalar weight. -/
def mix (x y : Vec3) (a : ℚ) : Vec3 := (x.scale (1 - a)).add (y.scale a)

/-- A bound texture: the colour returned for each texture coordinate. -/
abbrev Sampler2D := Vec2 → Vec4

/-- GLSL `texture2D(sampler, coord)`. -/
def texture2D (s : Sampler2D) (coord : Vec2) : Vec4 := s coord

/-! ## Material uniforms and the fragment shader -/

/-- Result of the JavaScript division `a / b` as far as the program uses it:
finite when `b` is not zero, non-finite (`none`) when it is. -/
def jsDiv (a b : ℚ) : Option ℚ := if b = 0 then none else some (a / b)

/-- The uniforms of the material built in `createTextMesh` (lines 121-131).
`smoothing` is written from a division each frame, so it may be non-finite. -/
structure Uniforms where
  tSDF : Sampler2D
  textColor : Vec3
  outlineColor : Vec3
  smoothing : Option ℚ
  buffer : ℚ
  outlineSize : ℚ
  opacity : ℚ
  drawUV : Bool
  drawDistance : Bool

/-- Fragment shader `main` (lines 109-118). The result is `gl_FragColor`;
`none` means its value is undefined. -/
def fragMain (u : Uniforms) (vUv : Vec2) : Option Vec4 :=
  let distance := (texture2D u.tSDF vUv).w
  let alpha := u.smoothing.bind fun smoothing =>
    smoothstep (u.buffer - smoothing) (u.buffer + smoothing) distance
  let border := u.smoothing.bind fun smoothing =>
    smoothstep (u.buffer + u.outlineSize - smoothing) (u.buffer + u.outlineSize + smoothing)
      distance
  let c0 : Option Vec4 := alpha.bind fun alpha => border.bind fun border =>
    some (((vec4_3_1 (mix u.outlineColor u.textColor border) 1).scale alpha).scale u.opacity)
  let c1 : Option Vec4 := if u.drawUV then some (vec4_2_1_1 vUv 0 1) else c0
  if u.drawDistance then some (vec4_1 distance) else c1

/-! ## Glyph geometry generator

`FontGeometryGenerator` is imported by `App.js` (line 3) but its file is not
part of the available sources. -/

/-- Source rectangle of a glyph in the atlas, in pixels. -/
structure Rect where
  x : ℚ
  y : ℚ
  width : ℚ
  height : ℚ

/-- One laid-out glyph: position, box size and atlas rectangle. -/
structure GlyphPlacement where
  x : ℚ
  y : ℚ
  width : ℚ
  height : ℚ
  src : Rect

/-- Failure of the geometry generator on a non-positive atlas dimension. -/
inductive GeometryError where
  | invalidArgument
deriving DecidableEq

/-- Modelled from the spec: `FontGeometryGenerator.getPositions` (the module is
imported by `App.js` but absent from the sources). Per glyph, in input order, four
vertices of two numbers each, computed from the glyph position and box size, in
the order of the spec scenario `[0,0, 10,0, 0,20, 10,20]` for the box
`x:0, y:0, w:10, h:20`. -/
def getPositions (glyphs : List GlyphPlacement) : List ℚ :=
  glyphs.flatMap fun g =>
    [g.x, g.y,
     g.x + g.width, g.y,
     g.x, g.y + g.height,
     g.x + g.width, g.y + g.height]

/-- Modelled from the spec: `FontGeometryGenerator.getUvs` (the module is imported
by `App.js` but absent from the sources). Atlas dimensions must be positive,
otherwise `InvalidArgument`; per glyph the source rectangle divided by the atlas
dimensions, same four-vertex order as the positions; `flipY` inverts the
vertical axis. -/
def getUvs (glyphs : List GlyphPlacement) (atlasWidth atlasHeight : Int) (flipY : Bool) :
    Except GeometryError (List ℚ) :=
  if atlasWidth ≤ 0 ∨ atlasHeight ≤ 0 then
    .error .invalidArgument
  else
    let w : ℚ := atlasWidth
    let h : ℚ := atlasHeight
    let vflip : ℚ → ℚ := fun v => if flipY then 1 - v else v
    .ok (glyphs.flatMap fun g =>
      let u0 := g.src.x / w
      let u1 := (g.src.x + g.src.width) / w
      let v0 := vflip (g.src.y / h)
      let v1 := vflip ((g.src.y + g.src.height) / h)
      [u0, v0, u1, v0, u0, v1, u1, v1])

/-! ## Mesh, control-panel parameters, collaborators -/

/-- The attribute and index buffers of the `PIXI.Geometry` (lines 72-76). -/
structure Geometry where
  position : List ℚ
  uv : List ℚ
  index : List Nat

/-- The `PIXI.Mesh` as far as the program touches it. -/
structure Mesh where
  geometry : Geometry
  uniforms : Uniforms
  scale : Vec2
  position : Vec2

/-- The object `guiParams` (lines 11-17): the live DisplayParameters. -/
structure DisplayParameters where
  drawUV : Bool
  drawDistance : Bool
  scale : ℚ
  buffer : ℚ
  outlineSize : ℚ
deriving DecidableEq

/-- Initial value of `guiParams` (lines 11-17). -/
def guiParamsInit : DisplayParameters :=
  { drawUV := false, drawDistance := false, scale := 1, buffer := 3 / 10, outlineSize := 1 / 5 }

/-- A parsed bitmap font; the program only passes it on to the layout provider. -/
structure Font where
  face : String
deriving DecidableEq

/-- The error value a font load reports. -/
structure LoadError where
  message : String
deriving DecidableEq

/-- What escapes `createTextMesh` as an exception. -/
inductive Thrown where
  | layout
  | geometry (e : GeometryError)
deriving DecidableEq

/-- Collaborators outside the repository. -/
structure Env where
  /-- The `createLayout` of layout-bmfont-text for a font (possibly `undefined`) and a
  text, with the fixed options of lines 57-62; `none` when it throws. -/
  createLayout : Option Font → String → Option (List GlyphPlacement)
  /-- The `createIndices([], ...)` of quad-indices (lines 66-70) for a quad count. -/
  createIndices : Nat → List Nat
  /-- The engine getter `mesh.width`, read from the current mesh state. -/
  meshWidth : Mesh → ℚ
  /-- The `PIXI.Texture.from` of the atlas image (line 122). -/
  texture : Sampler2D

/-- Function `createTextMesh` (lines 56-134). A new mesh has the engine defaults
scale `(1, 1)` and position `(0, 0)`. -/
def createTextMesh (env : Env) (font : Option Font) (text : String) : Except Thrown Mesh :=
  match env.createLayout font text with
  | none => .error .layout
  | some glyphs =>
    let positions := getPositions glyphs
    match getUvs glyphs 512 256 false with
    | .error e => .error (.geometry e)
    | .ok uvs =>
      let indices := env.createIndices glyphs.length
      let geometry : Geometry := { position := positions, uv := uvs, index := indices }
      let material : Uniforms :=
        { tSDF := env.texture
          textColor := ⟨1, 1, 1⟩
          outlineColor := ⟨1 / 10, 1 / 10, 1 / 10⟩
          smoothing := some (1 / 10)
          buffer := 1 / 10
          outlineSize := 1 / 10
          opacity := 1
          drawUV := false
          drawDistance := false }
      .ok { geometry := geometry, uniforms := material, scale := ⟨1, 1⟩, position := ⟨0, 0⟩ }

/-! ## Font loading -/

/-- State of a JavaScript promise. -/
inductive Promise (α : Type) where
  | pending
  | resolved (value : α)
  | rejected (reason : LoadError)

/-- Function `loadFNT` (lines 48-54). The argument is what `loadFont` does with the
callback: `none` if it never invokes it, `some (error, font)` if it invokes it
with these two arguments (each possibly `undefined`, i.e. `none`). The executor
only receives `resolve`, and the callback calls `resolve(font)`. -/
def loadFNT (callback : Option (Option LoadError × Option Font)) : Promise (Option Font) :=
  match callback with
  | none => .pending
  | some (_error, font) => .resolved font

/-! ## Scene construction and the per-frame callback -/

/-- The state the ticker callback works on: the panel parameters, the renderer
screen size and the mesh captured by the closure. -/
structure App where
  guiParams : DisplayParameters
  screenWidth : ℚ
  screenHeight : ℚ
  mesh : Mesh

/-- Apply an update to `mesh.material.uniforms`. -/
def App.setUniforms (a : App) (f : Uniforms → Uniforms) : App :=
  { a with mesh := { a.mesh with uniforms := f a.mesh.uniforms } }

/-- Line 32: `mesh.material.uniforms.drawUV = guiParams.drawUV`. -/
def writeDrawUV (a : App) : App :=
  a.setUniforms fun u => { u with drawUV := a.guiParams.drawUV }

/-- Line 33: `mesh.material.uniforms.drawDistance = guiParams.drawDistance`. -/
def writeDrawDistance (a : App) : App :=
  a.setUniforms fun u => { u with drawDistance := a.guiParams.drawDistance }

/-- Line 34: `mesh.material.uniforms.smoothing = 0.1 / guiParams.scale`. -/
def writeSmoothing (a : App) : App :=
  a.setUniforms fun u => { u with smoothing := jsDiv (1 / 10) a.guiParams.scale }

/-- Line 35: `mesh.material.uniforms.buffer = guiParams.buffer`. -/
def writeBuffer (a : App) : App :=
  a.setUniforms fun u => { u with buffer := a.guiParams.buffer }

/-- Line 36: `mesh.material.uniforms.outlineSize = guiParams.outlineSize`. -/
def writeOutlineSize (a : App) : App :=
  a.setUniforms fun u => { u with outlineSize := a.guiParams.outlineSize }

/-- Line 37: `mesh.scale.set(guiParams.scale, guiParams.scale)`. -/
def writeScale (a : App) : App :=
  { a with mesh := { a.mesh with scale := ⟨a.guiParams.scale, a.guiParams.scale⟩ } }

/-- Line 38: `mesh.position.set(app.screen.width / 2 - mesh.width / 2,
app.screen.height / 2)`. -/
def writePosition (env : Env) (a : App) : App :=
  { a with mesh := { a.mesh with
      position := ⟨a.screenWidth / 2 - env.meshWidth a.mesh / 2, a.screenHeight / 2⟩ } }

/-- The ticker callback (lines 31-39): its seven statements in source order. -/
def tick (env : Env) (a : App) : App :=
  writePosition env (writeScale (writeOutlineSize (writeBuffer (writeSmoothing
    (writeDrawDistance (writeDrawUV a))))))

/-- The state of the mesh at the moment the ticker callback reads `mesh.width`:
all five uniforms and the scale are already written, the position is not. -/
def meshBeforeCentering (a : App) : Mesh :=
  { a.mesh with
    uniforms := { a.mesh.uniforms with
      drawUV := a.guiParams.drawUV
      drawDistance := a.guiParams.drawDistance
      smoothing := jsDiv (1 / 10) a.guiParams.scale
      buffer := a.guiParams.buffer
      outlineSize := a.guiParams.outlineSize }
    scale := ⟨a.guiParams.scale, a.guiParams.scale⟩ }

/-- How the promise returned by `init` stands. -/
inductive InitStatus where
  | pending
  | fulfilled
  | rejected
deriving DecidableEq

/-- Observable effects of one run of `init`. -/
structure InitTrace where
  /-- Arguments of every call made to `createTextMesh`. -/
  createTextMeshCalls : List (Option Font × String)
  /-- Children added to `app.stage`. -/
  stage : List Mesh
  /-- Whether the ticker callback was registered. -/
  tickerAdded : Bool
  status : InitStatus

/-- Function `init` (lines 24-46) on a fresh application (empty stage). -/
def init (env : Env) (callback : Option (Option LoadError × Option Font))
    (screenWidth screenHeight : ℚ) : InitTrace :=
  match loadFNT callback with
  | .pending =>
    { createTextMeshCalls := [], stage := [], tickerAdded := false, status := .pending }
  | .rejected _ =>
    { createTextMeshCalls := [], stage := [], tickerAdded := false, status := .rejected }
  | .resolved font =>
    match createTextMesh env font "Lorem ipsum dolor sit amet" with
    | .error _ =>
      { createTextMeshCalls := [(font, "Lorem ipsum dolor sit amet")], stage := [],
        tickerAdded := false, status := .rejected }
    | .ok mesh =>
      let mesh := { mesh with
        position := ⟨screenWidth / 2 - env.meshWidth mesh / 2, screenHeight / 2⟩ }
      { createTextMeshCalls := [(font, "Lorem ipsum dolor sit amet")], stage := [mesh],
        tickerAdded := true, status := .fulfilled }

/-! ## Specification-side formulas -/

/-- The smoothstep formula in the words of the specification:
`t * t * (3 - 2 t)` with `t = clamp((x - e0) / (e1 - e0), 0, 1)`. -/
def specSmoothstep (e0 e1 x : ℚ) : ℚ :=
  let t := min (max ((x - e0) / (e1 - e0)) 0) 1
  t * t * (3 - 2 * t)

/-- The shaded output in the words of the specification: per colour channel
`(outlineColor * (1 - border) + textColor * border) * alpha * opacity`, and the
alpha channel `alpha * opacity`. -/
def specShaded (outlineColor textColor : Vec3) (alpha border opacity : ℚ) : Vec4 :=
  ⟨(outlineColor.x * (1 - border) + textColor.x * border) * alpha * opacity,
   (outlineColor.y * (1 - border) + textColor.y * border) * alpha * opacity,
   (outlineColor.z * (1 - border) + textColor.z * border) * alpha * opacity,
   alpha * opacity⟩

/-! ## Example inputs -/

/-- A texture whose every texel is `(0, 0, 0, a)`. -/
def constTexture (a : ℚ) : Sampler2D := fun _ => ⟨0, 0, 0, a⟩

/-- The uniforms `createTextMesh` starts with, over a constant texture, with the
two debug flags as given. -/
def sampleUniforms (a : ℚ) (drawUV drawDistance : Bool) : Uniforms :=
  { tSDF := constTexture a
    textColor := ⟨1, 1, 1⟩
    outlineColor := ⟨1 / 10, 1 / 10, 1 / 10⟩
    smoothing := some (1 / 10)
    buffer := 1 / 10
    outlineSize := 1 / 10
    opacity := 1
    drawUV := drawUV
    drawDistance := drawDistance }

/-- The glyph of the end-to-end scenario of the specification: box
`x:0, y:0, w:10, h:20`, source rectangle `x:0, y:0, w:10, h:10`. -/
def sampleGlyph : GlyphPlacement :=
  { x := 0, y := 0, width := 10, height := 20,
    src := { x := 0, y := 0, width := 10, height := 10 } }

/-- Example collaborators: a layout that throws on an undefined font and lays
out one glyph otherwise, clockwise quad indices, and a mesh whose local bounds
are 10 wide. -/
def sampleEnv : Env :=
  { createLayout := fun font _ => font.map fun _ => [sampleGlyph]
    createIndices := fun count =>
      (List.range count).flatMap fun i =>
        [4 * i, 4 * i + 1, 4 * i + 2, 4 * i, 4 * i + 2, 4 * i + 3]
    meshWidth := fun m => m.scale.x * 10
    texture := constTexture (3 / 20) }

/-- Example font. -/
def sampleFont : Font := { face := "roboto" }

/-- Example load error: the font file is missing. -/
def sampleError : LoadError := { message := "ENOENT" }

/-- Example mesh: the geometry of `sampleGlyph` with the given uniforms. -/
def sampleMesh (u : Uniforms) : Mesh :=
  { geometry := { position := [0, 0, 10, 0, 0, 20, 10, 20], uv := [], index := [0, 1, 2, 0, 2, 3] }
    uniforms := u
    scale := ⟨1, 1⟩
    position := ⟨0, 0⟩ }

/-- Example application state: an 800 by 600 screen, the panel at scale 2. -/
def sampleApp : App :=
  { guiParams := { drawUV := false, drawDistance := false, scale := 2, buffer := 3 / 10,
                   outlineSize := 1 / 5 }
    screenWidth := 800
    screenHeight := 600
    mesh := sampleMesh (sampleUniforms (3 / 20) true true) }

/-! ## Lemmas on the GLSL built-ins -/

theorem smoothstep_eq_spec (e0 e1 x : ℚ) (h : e0 < e1) :
    smoothstep e0 e1 x = some (specSmoothstep e0 e1 x) := by
  simp [smoothstep, specSmoothstep, clamp, h]

theorem clamp_mem (x : ℚ) : 0 ≤ clamp x 0 1 ∧ clamp x 0 1 ≤ 1 := by
  unfold clamp
  exact ⟨le_min (le_max_right _ _) zero_le_one, min_le_right _ _⟩

theorem clamp_mono {x y : ℚ} (h : x ≤ y) : clamp x 0 1 ≤ clamp y 0 1 := by
  unfold clamp
  exact min_le_min (max_le_max h le_rfl) le_rfl

theorem hermite_mono {a b : ℚ} (hb0 : 0 ≤ b) (hba : b ≤ a) (ha1 : a ≤ 1) :
    b * b * (3 - 2 * b) ≤ a * a * (3 - 2 * a) := by
  have h0 : 0 ≤ a := le_trans hb0 hba
  have hb1 : b ≤ 1 := le_trans hba ha1
  have key : a * a * (3 - 2 * a) - b * b * (3 - 2 * b)
      = (a - b) * (3 * (a + b) - 2 * (a * a + a * b + b * b)) := by ring
  have h1 : 0 ≤ a - b := sub_nonneg.mpr hba
  have h2 : 0 ≤ 3 * (a + b) - 2 * (a * a + a * b + b * b) := by
    nlinarith [mul_nonneg h0 (sub_nonneg.mpr ha1), mul_nonneg hb0 (sub_nonneg.mpr hb1),
      mul_nonneg h0 (sub_nonneg.mpr hb1), mul_nonneg hb0 (sub_nonneg.mpr ha1)]
  have := mul_nonneg h1 h2
  linarith

theorem hermite_nonneg {t : ℚ} (h0 : 0 ≤ t) (h1 : t ≤ 1) : 0 ≤ t * t * (3 - 2 * t) := by
  have : 0 ≤ 3 - 2 * t := by linarith
  exact mul_nonneg (mul_nonneg h0 h0) this

theorem hermite_le_one {t : ℚ} (h0 : 0 ≤ t) : t * t * (3 - 2 * t) ≤ 1 := by
  have key : 1 - t * t * (3 - 2 * t) = (1 - t) * (1 - t) * (1 + 2 * t) := by ring
  have : 0 ≤ (1 - t) * (1 - t) * (1 + 2 * t) :=
    mul_nonneg (mul_self_nonneg _) (by linarith)
  linarith

theorem specSmoothstep_mem (e0 e1 x : ℚ) :
    0 ≤ specSmoothstep e0 e1 x ∧ specSmoothstep e0 e1 x ≤ 1 := by
  have h := clamp_mem ((x - e0) / (e1 - e0))
  unfold clamp at h
  exact ⟨hermite_nonneg h.1 h.2, hermite_le_one h.1⟩

theorem specSmoothstep_shift_le (b o s d : ℚ) (hs : 0 < s) (ho : 0 ≤ o) :
    specSmoothstep (b + o - s) (b + o + s) d ≤ specSmoothstep (b - s) (b + s) d := by
  have hden : b + o + s - (b + o - s) = b + s - (b - s) := by ring
  have hpos : 0 < b + s - (b - s) := by linarith
  have harg : (d - (b + o - s)) / (b + o + s - (b + o - s)) ≤ (d - (b - s)) / (b + s - (b - s)) := by
    rw [hden]
    exact div_le_div_of_nonneg_right (by linarith) hpos.le
  have hc := clamp_mono harg
  have hm := clamp_mem ((d - (b + o - s)) / (b + o + s - (b + o - s)))
  have hM := clamp_mem ((d - (b - s)) / (b + s - (b - s)))
  unfold clamp at hc hm hM
  exact hermite_mono hm.1 hc hM.2

theorem fragMain_of_flags_off (u : Uniforms) (vUv : Vec2) (s : ℚ)
    (hUV : u.drawUV = false) (hD : u.drawDistance = false)
    (hs : u.smoothing = some s) (hpos : 0 < s) :
    fragMain u vUv = some (specShaded u.outlineColor u.textColor
      (specSmoothstep (u.buffer - s) (u.buffer + s) (u.tSDF vUv).w)
      (specSmoothstep (u.buffer + u.outlineSize - s) (u.buffer + u.outlineSize + s)
        (u.tSDF vUv).w)
      u.opacity) := by
  have h1 : u.buffer - s < u.buffer + s := by linarith
  have h2 : u.buffer + u.outlineSize - s < u.buffer + u.outlineSize + s := by linarith
  simp [fragMain, hUV, hD, hs, texture2D, smoothstep_eq_spec _ _ _ h1,
    smoothstep_eq_spec _ _ _ h2, specShaded, vec4_3_1, mix, Vec3.add, Vec3.scale, Vec4.scale]

/-! ## Lemmas on the geometry generator and the ticker -/

theorem getPositions_length (glyphs : List GlyphPlacement) :
    (getPositions glyphs).length = 8 * glyphs.length := by
  induction glyphs with
  | nil => rfl
  | cons g gs ih =>
    have : getPositions (g :: gs) =
        [g.x, g.y, g.x + g.width, g.y, g.x, g.y + g.height, g.x + g.width, g.y + g.height]
          ++ getPositions gs := rfl
    rw [this, List.length_append, ih, List.length_cons]
    simp only [List.length_cons, List.length_nil]
    omega

theorem getUvs_atlas_ok (glyphs : List GlyphPlacement) :
    ∃ uvs, getUvs glyphs 512 256 false = .ok uvs ∧ uvs.length = 8 * glyphs.length := by
  refine ⟨glyphs.flatMap fun g =>
      [g.src.x / 512, g.src.y / 256, (g.src.x + g.src.width) / 512, g.src.y / 256,
       g.src.x / 512, (g.src.y + g.src.height) / 256,
       (g.src.x + g.src.width) / 512, (g.src.y + g.src.height) / 256], ?_, ?_⟩
  · simp [getUvs]
  · induction glyphs with
    | nil => rfl
    | cons g gs ih =>
      rw [List.flatMap_cons, List.length_append, ih, List.length_cons]
      simp only [List.length_cons, List.length_nil]
      omega

theorem tick_mesh (env : Env) (a : App) :
    (tick env a).mesh = { meshBeforeCentering a with
      position := ⟨a.screenWidth / 2 - env.meshWidth (meshBeforeCentering a) / 2,
                   a.screenHeight / 2⟩ } := by
  simp only [tick, writePosition, writeScale, writeOutlineSize, writeBuffer, writeSmoothing,
    writeDrawDistance, writeDrawUV, App.setUniforms, meshBeforeCentering]

theorem tick_guiParams (env : Env) (a : App) : (tick env a).guiParams = a.guiParams := by
  simp only [tick, writePosition, writeScale, writeOutlineSize, writeBuffer, writeSmoothing,
    writeDrawDistance, writeDrawUV, App.setUniforms]

theorem createTextMesh_scale (env : Env) (font : Option Font) (text : String) (mesh : Mesh)
    (h : createTextMesh env font text = .ok mesh) : mesh.scale = ⟨1, 1⟩ := by
  unfold createTextMesh at h
  split at h
  · cases h
  · split at h
    · cases h
    · cases h
      rfl

theorem init_stage_of_ok (env : Env) (error : Option LoadError) (font : Option Font)
    (w h : ℚ) (mesh : Mesh)
    (hm : createTextMesh env font "Lorem ipsum dolor sit amet" = .ok mesh) :
    (init env (some (error, font)) w h).stage
      = [{ mesh with position := ⟨w / 2 - env.meshWidth mesh / 2, h / 2⟩ }] := by
  unfold init loadFNT
  simp only [hm]

theorem createTextMesh_layout_throws (env : Env) (font : Option Font) (text : String)
    (h : env.createLayout font text = none) :
    createTextMesh env font text = .error .layout := by
  unfold createTextMesh
  simp only [h]

theorem init_calls (env : Env) (error : Option LoadError) (font : Option Font) (w h : ℚ) :
    (init env (some (error, font)) w h).createTextMeshCalls
      = [(font, "Lorem ipsum dolor sit amet")] := by
  unfold init loadFNT
  simp only
  split <;> rfl

theorem jsDiv_of_ne_zero (a b : ℚ) (h : b ≠ 0) : jsDiv a b = some (a / b) := by
  simp [jsDiv, h]

/-! ## Fragment shader: shaded output and debug overrides -/

/-- C1: with both debug flags false and `smoothing > 0`, the fragment output is
defined and equals `(mix(outlineColor, textColor, border), 1) * alpha * opacity`,
that is per colour channel `(outlineColor * (1 - border) + textColor * border) *
alpha * opacity` and alpha channel `alpha * opacity`, where `alpha` and `border`
are the smoothstep formula `t * t * (3 - 2 t)`, `t = clamp((x - e0) / (e1 - e0), 0, 1)`,
at the edges `buffer -+ smoothing` and `buffer + outlineSize -+ smoothing`. -/
theorem fragMain_shaded (u : Uniforms) (vUv : Vec2) (s : ℚ)
    (hUV : u.drawUV = false) (hD : u.drawDistance = false)
    (hs : u.smoothing = some s) (hpos : 0 < s) :
    smoothstep (u.buffer - s) (u.buffer + s) (u.tSDF vUv).w
        = some (specSmoothstep (u.buffer - s) (u.buffer + s) (u.tSDF vUv).w)
    ∧ smoothstep (u.buffer + u.outlineSize - s) (u.buffer + u.outlineSize + s) (u.tSDF vUv).w
        = some (specSmoothstep (u.buffer + u.outlineSize - s) (u.buffer + u.outlineSize + s)
            (u.tSDF vUv).w)
    ∧ fragMain u vUv = some (specShaded u.outlineColor u.textColor
        (specSmoothstep (u.buffer - s) (u.buffer + s) (u.tSDF vUv).w)
        (specSmoothstep (u.buffer + u.outlineSize - s) (u.buffer + u.outlineSize + s)
          (u.tSDF vUv).w)
        u.opacity) :=
  ⟨smoothstep_eq_spec _ _ _ (by linarith), smoothstep_eq_spec _ _ _ (by linarith),
   fragMain_of_flags_off u vUv s hUV hD hs hpos⟩

/-- Witness of C1: the initial uniforms over a texture of distance 3/20; there
alpha is 27/32 and border is 5/32. -/
theorem fragMain_shaded_witness :
    (sampleUniforms (3 / 20) false false).drawUV = false
    ∧ (sampleUniforms (3 / 20) false false).drawDistance = false
    ∧ (sampleUniforms (3 / 20) false false).smoothing = some (1 / 10)
    ∧ (0 : ℚ) < 1 / 10
    ∧ specSmoothstep (1 / 10 - 1 / 10) (1 / 10 + 1 / 10) (3 / 20) = 27 / 32
    ∧ specSmoothstep (1 / 10 + 1 / 10 - 1 / 10) (1 / 10 + 1 / 10 + 1 / 10) (3 / 20) = 5 / 32
    ∧ fragMain (sampleUniforms (3 / 20) false false) ⟨0, 0⟩
        = some (specShaded ⟨1 / 10, 1 / 10, 1 / 10⟩ ⟨1, 1, 1⟩
            (specSmoothstep (1 / 10 - 1 / 10) (1 / 10 + 1 / 10) (3 / 20))
            (specSmoothstep (1 / 10 + 1 / 10 - 1 / 10) (1 / 10 + 1 / 10 + 1 / 10) (3 / 20))
            1) :=
  ⟨rfl, rfl, rfl, by norm_num, by norm_num [specSmoothstep], by norm_num [specSmoothstep],
   (fragMain_shaded (sampleUniforms (3 / 20) false false) ⟨0, 0⟩ (1 / 10)
      rfl rfl rfl (by norm_num)).2.2⟩

/-- C6, as stated, fails: with `drawUV` and `drawDistance` both set, at uv
`(1/2, 1/4)` and sampled distance `3/4`, the output is `(3/4, 3/4, 3/4, 3/4)`, not
the raw UV `(1/2, 1/4, 0, 1)`. -/
theorem fragMain_drawUV_not_raw_uv :
    (sampleUniforms (3 / 4) true true).drawUV = true
    ∧ fragMain (sampleUniforms (3 / 4) true true) ⟨1 / 2, 1 / 4⟩ = some ⟨3 / 4, 3 / 4, 3 / 4, 3 / 4⟩
    ∧ fragMain (sampleUniforms (3 / 4) true true) ⟨1 / 2, 1 / 4⟩ ≠ some ⟨1 / 2, 1 / 4, 0, 1⟩ := by
  refine ⟨rfl, rfl, ?_⟩
  have h : fragMain (sampleUniforms (3 / 4) true true) ⟨1 / 2, 1 / 4⟩
      = some ⟨3 / 4, 3 / 4, 3 / 4, 3 / 4⟩ := rfl
  rw [h]
  intro hc
  have hx := congrArg Vec4.x (Option.some.inj hc)
  norm_num at hx

/-- C6 (amended): for every uv, sampled distance and values of the other
uniforms (a non-positive or non-finite smoothing included), if `drawDistance` is
set the output is `(d, d, d, d)` whatever `drawUV` is, and if `drawUV` is set and
`drawDistance` is not, the output is `(u, v, 0, 1)`. -/
theorem fragMain_debug_override (u : Uniforms) (vUv : Vec2) :
    (u.drawDistance = true →
      fragMain u vUv = some ⟨(u.tSDF vUv).w, (u.tSDF vUv).w, (u.tSDF vUv).w, (u.tSDF vUv).w⟩)
    ∧ (u.drawUV = true → u.drawDistance = false →
      fragMain u vUv = some ⟨vUv.x, vUv.y, 0, 1⟩) := by
  constructor
  · intro hD
    simp [fragMain, hD, vec4_1, texture2D]
  · intro hUV hD
    simp [fragMain, hD, hUV, vec4_2_1_1]

/-- Witness of amended C6: both flags set gives the raw distance, `drawUV` alone
gives the raw UV. -/
theorem fragMain_debug_override_witness :
    ((sampleUniforms (3 / 4) true true).drawDistance = true
      ∧ fragMain (sampleUniforms (3 / 4) true true) ⟨1 / 2, 1 / 4⟩
          = some ⟨3 / 4, 3 / 4, 3 / 4, 3 / 4⟩)
    ∧ ((sampleUniforms (3 / 4) true false).drawUV = true
      ∧ (sampleUniforms (3 / 4) true false).drawDistance = false
      ∧ fragMain (sampleUniforms (3 / 4) true false) ⟨1 / 2, 1 / 4⟩
          = some ⟨1 / 2, 1 / 4, 0, 1⟩) :=
  ⟨⟨rfl, (fragMain_debug_override (sampleUniforms (3 / 4) true true) ⟨1 / 2, 1 / 4⟩).1 rfl⟩,
   ⟨rfl, rfl,
    (fragMain_debug_override (sampleUniforms (3 / 4) true false) ⟨1 / 2, 1 / 4⟩).2 rfl rfl⟩⟩

/-- C9, as stated, fails on its last part: with `drawUV` set, at uv `(1/2, 1/4)`
and sampled distance `0` (buffer and smoothing both 1/10), alpha is `0` and yet
the output is `(1/2, 1/4, 0, 1)`, not the zero vector. -/
theorem fragMain_alpha_zero_not_zero_output :
    (sampleUniforms 0 true false).smoothing = some (1 / 10)
    ∧ (0 : ℚ) ≤ (sampleUniforms 0 true false).outlineSize
    ∧ smoothstep ((sampleUniforms 0 true false).buffer - 1 / 10)
        ((sampleUniforms 0 true false).buffer + 1 / 10)
        ((sampleUniforms 0 true false).tSDF ⟨1 / 2, 1 / 4⟩).w = some 0
    ∧ fragMain (sampleUniforms 0 true false) ⟨1 / 2, 1 / 4⟩ = some ⟨1 / 2, 1 / 4, 0, 1⟩
    ∧ fragMain (sampleUniforms 0 true false) ⟨1 / 2, 1 / 4⟩ ≠ some Vec4.zero := by
  have h : fragMain (sampleUniforms 0 true false) ⟨1 / 2, 1 / 4⟩
      = some ⟨1 / 2, 1 / 4, 0, 1⟩ := by
    simp [fragMain, sampleUniforms, vec4_2_1_1]
  refine ⟨rfl, by norm_num [sampleUniforms], ?_, h, ?_⟩
  · norm_num [sampleUniforms, constTexture, smoothstep, clamp]
  · rw [h]
    intro hc
    have hw := congrArg Vec4.w (Option.some.inj hc)
    norm_num [Vec4.zero] at hw

/-- C9 (amended): for every sampled distance, buffer, `smoothing > 0` and
`outlineSize >= 0`, both smoothstep values are defined and
`0 <= border <= alpha <= 1`; hence `border = 1` forces `alpha = 1`; and, with both
debug flags false, wherever `alpha = 0` the output is the zero vector. -/
theorem fragMain_coverage_order (u : Uniforms) (vUv : Vec2) (s : ℚ)
    (hs : u.smoothing = some s) (hpos : 0 < s) (ho : 0 ≤ u.outlineSize) :
    ∃ alpha border : ℚ,
      smoothstep (u.buffer - s) (u.buffer + s) (u.tSDF vUv).w = some alpha
      ∧ smoothstep (u.buffer + u.outlineSize - s) (u.buffer + u.outlineSize + s)
          (u.tSDF vUv).w = some border
      ∧ 0 ≤ border ∧ border ≤ alpha ∧ alpha ≤ 1
      ∧ (border = 1 → alpha = 1)
      ∧ (alpha = 0 → u.drawUV = false → u.drawDistance = false →
          fragMain u vUv = some Vec4.zero) := by
  have hle := specSmoothstep_shift_le u.buffer u.outlineSize s (u.tSDF vUv).w hpos ho
  have ha := specSmoothstep_mem (u.buffer - s) (u.buffer + s) (u.tSDF vUv).w
  have hb := specSmoothstep_mem (u.buffer + u.outlineSize - s) (u.buffer + u.outlineSize + s)
    (u.tSDF vUv).w
  refine ⟨_, _, smoothstep_eq_spec _ _ _ (by linarith), smoothstep_eq_spec _ _ _ (by linarith),
    hb.1, hle, ha.2, ?_, ?_⟩
  · intro h1
    exact le_antisymm ha.2 (h1 ▸ hle)
  · intro h0 hUV hD
    rw [fragMain_of_flags_off u vUv s hUV hD hs hpos, h0]
    simp [specShaded, Vec4.zero]

/-- Witness of amended C9: the initial uniforms at sampled distance 0, where
alpha and border are both 0 and the output is the zero vector. -/
theorem fragMain_coverage_order_witness :
    (sampleUniforms 0 false false).smoothing = some (1 / 10)
    ∧ (0 : ℚ) < 1 / 10
    ∧ (0 : ℚ) ≤ (sampleUniforms 0 false false).outlineSize
    ∧ ∃ alpha border : ℚ,
      smoothstep ((sampleUniforms 0 false false).buffer - 1 / 10)
        ((sampleUniforms 0 false false).buffer + 1 / 10)
        ((sampleUniforms 0 false false).tSDF ⟨0, 0⟩).w = some alpha
      ∧ smoothstep
          ((sampleUniforms 0 false false).buffer + (sampleUniforms 0 false false).outlineSize
            - 1 / 10)
          ((sampleUniforms 0 false false).buffer + (sampleUniforms 0 false false).outlineSize
            + 1 / 10)
          ((sampleUniforms 0 false false).tSDF ⟨0, 0⟩).w = some border
      ∧ 0 ≤ border ∧ border ≤ alpha ∧ alpha ≤ 1
      ∧ (border = 1 → alpha = 1)
      ∧ (alpha = 0 → (sampleUniforms 0 false false).drawUV = false →
          (sampleUniforms 0 false false).drawDistance = false →
          fragMain (sampleUniforms 0 false false) ⟨0, 0⟩ = some Vec4.zero) :=
  ⟨rfl, by norm_num, by norm_num [sampleUniforms],
   fragMain_coverage_order (sampleUniforms 0 false false) ⟨0, 0⟩ (1 / 10) rfl (by norm_num)
     (by norm_num [sampleUniforms])⟩

/-! ## The ticker callback -/

/-- C2: for every DisplayParameters value with `scale != 0` and every prior mesh
state, after one tick the uniforms are `drawUV = p.drawUV`,
`drawDistance = p.drawDistance`, `buffer = p.buffer`, `outlineSize = p.outlineSize`,
`smoothing = 0.1 / p.scale` (finite), and the mesh scale is `(p.scale, p.scale)`;
any other prior state with the same parameters gives the same six values. -/
theorem tick_writes_uniforms (env : Env) (a : App) (h : a.guiParams.scale ≠ 0) :
    (tick env a).mesh.uniforms.drawUV = a.guiParams.drawUV
    ∧ (tick env a).mesh.uniforms.drawDistance = a.guiParams.drawDistance
    ∧ (tick env a).mesh.uniforms.buffer = a.guiParams.buffer
    ∧ (tick env a).mesh.uniforms.outlineSize = a.guiParams.outlineSize
    ∧ (tick env a).mesh.uniforms.smoothing = some (1 / 10 / a.guiParams.scale)
    ∧ (tick env a).mesh.scale = ⟨a.guiParams.scale, a.guiParams.scale⟩
    ∧ ∀ (env2 : Env) (b : App), b.guiParams = a.guiParams →
        (tick env2 b).mesh.uniforms.drawUV = (tick env a).mesh.uniforms.drawUV
        ∧ (tick env2 b).mesh.uniforms.drawDistance = (tick env a).mesh.uniforms.drawDistance
        ∧ (tick env2 b).mesh.uniforms.buffer = (tick env a).mesh.uniforms.buffer
        ∧ (tick env2 b).mesh.uniforms.outlineSize = (tick env a).mesh.uniforms.outlineSize
        ∧ (tick env2 b).mesh.uniforms.smoothing = (tick env a).mesh.uniforms.smoothing
        ∧ (tick env2 b).mesh.scale = (tick env a).mesh.scale := by
  refine ⟨rfl, rfl, rfl, rfl, ?_, rfl, ?_⟩
  · show jsDiv (1 / 10) a.guiParams.scale = _
    exact jsDiv_of_ne_zero _ _ h
  · intro env2 b hb
    simp [tick_mesh, meshBeforeCentering, hb]

/-- Witness of C2: the panel at scale 2 over a mesh whose debug uniforms were
both set; after the tick smoothing is 1/20 and the flags are cleared. -/
theorem tick_writes_uniforms_witness :
    sampleApp.guiParams.scale ≠ 0
    ∧ sampleApp.mesh.uniforms.drawUV = true
    ∧ (tick sampleEnv sampleApp).mesh.uniforms.drawUV = false
    ∧ (tick sampleEnv sampleApp).mesh.uniforms.smoothing
        = some (1 / 10 / sampleApp.guiParams.scale)
    ∧ (tick sampleEnv sampleApp).mesh.scale = ⟨2, 2⟩ :=
  ⟨by norm_num [sampleApp], rfl,
   (tick_writes_uniforms sampleEnv sampleApp (by norm_num [sampleApp])).1,
   (tick_writes_uniforms sampleEnv sampleApp (by norm_num [sampleApp])).2.2.2.2.1,
   (tick_writes_uniforms sampleEnv sampleApp (by norm_num [sampleApp])).2.2.2.2.2.1⟩

/-- C7: one tick leaves DisplayParameters as it was, and on the mesh leaves the
uniforms `textColor`, `outlineColor`, `opacity`, `tSDF` and the geometry buffers
`position`, `uv`, `index` as they were. -/
theorem tick_frame (env : Env) (a : App) :
    (tick env a).guiParams = a.guiParams
    ∧ (tick env a).mesh.uniforms.textColor = a.mesh.uniforms.textColor
    ∧ (tick env a).mesh.uniforms.outlineColor = a.mesh.uniforms.outlineColor
    ∧ (tick env a).mesh.uniforms.opacity = a.mesh.uniforms.opacity
    ∧ (tick env a).mesh.uniforms.tSDF = a.mesh.uniforms.tSDF
    ∧ (tick env a).mesh.geometry.position = a.mesh.geometry.position
    ∧ (tick env a).mesh.geometry.uv = a.mesh.geometry.uv
    ∧ (tick env a).mesh.geometry.index = a.mesh.geometry.index := by
  rw [tick_guiParams, tick_mesh]
  exact ⟨rfl, rfl, rfl, rfl, rfl, rfl, rfl, rfl⟩

/-- C8: after one tick the mesh position is `(W/2 - w/2, H/2)` with `w` the
`mesh.width` read from the mesh as lines 32-37 leave it, the new scale
`(p.scale, p.scale)` already set, so `position.x + w/2 = W/2`; and when scene construction succeeds, `init` adds
to the stage the created mesh, whose scale is the initial `(1, 1)`, placed by
the same formula. -/
theorem centering (env : Env) (a : App) :
    (writeScale (writeOutlineSize (writeBuffer (writeSmoothing
      (writeDrawDistance (writeDrawUV a)))))).mesh = meshBeforeCentering a
    ∧ (meshBeforeCentering a).scale = ⟨a.guiParams.scale, a.guiParams.scale⟩
    ∧ (tick env a).mesh.position
        = ⟨a.screenWidth / 2 - env.meshWidth (meshBeforeCentering a) / 2, a.screenHeight / 2⟩
    ∧ (tick env a).mesh.position.x + env.meshWidth (meshBeforeCentering a) / 2
        = a.screenWidth / 2
    ∧ ∀ (callback : Option LoadError × Option Font) (mesh : Mesh),
        createTextMesh env callback.2 "Lorem ipsum dolor sit amet" = .ok mesh →
        mesh.scale = ⟨1, 1⟩
        ∧ (init env (some callback) a.screenWidth a.screenHeight).stage
            = [{ mesh with position :=
                  ⟨a.screenWidth / 2 - env.meshWidth mesh / 2, a.screenHeight / 2⟩ }] := by
  rw [tick_mesh]
  refine ⟨?_, rfl, rfl, ?_, ?_⟩
  · simp only [writeScale, writeOutlineSize, writeBuffer, writeSmoothing, writeDrawDistance,
      writeDrawUV, App.setUniforms, meshBeforeCentering]
  · show a.screenWidth / 2 - env.meshWidth (meshBeforeCentering a) / 2
      + env.meshWidth (meshBeforeCentering a) / 2 = a.screenWidth / 2
    ring
  · rintro ⟨err, font⟩ mesh hm
    exact ⟨createTextMesh_scale env font _ mesh hm, init_stage_of_ok env err font _ _ mesh hm⟩

/-- Witness of C8: on an 800 by 600 screen at scale 2 with a mesh 10 wide
locally, the tick places the mesh at `(390, 300)`; `init` with a loaded font
places the created mesh (scale 1) at `(395, 300)`. -/
theorem centering_witness :
    (tick sampleEnv sampleApp).mesh.position = ⟨390, 300⟩
    ∧ (∃ mesh, createTextMesh sampleEnv (some sampleFont) "Lorem ipsum dolor sit amet" = .ok mesh
        ∧ mesh.scale = ⟨1, 1⟩
        ∧ (init sampleEnv (some (none, some sampleFont)) 800 600).stage
            = [{ mesh with position := ⟨395, 300⟩ }]) := by
  have h := centering sampleEnv sampleApp
  refine ⟨?_, ?_⟩
  · rw [h.2.2.1]
    norm_num [sampleApp, sampleEnv, meshBeforeCentering]
  · have hm : ∃ mesh, createTextMesh sampleEnv (some sampleFont) "Lorem ipsum dolor sit amet"
        = .ok mesh := by
      simp [createTextMesh, sampleEnv, getUvs]
    obtain ⟨mesh, hm⟩ := hm
    have h2 := h.2.2.2.2 (none, some sampleFont) mesh hm
    refine ⟨mesh, hm, h2.1, ?_⟩
    have h3 := h2.2
    simp only [sampleApp] at h3
    rw [h3]
    have hx : mesh.scale.x = 1 := by rw [h2.1]
    norm_num [sampleEnv, hx]

/-- C10: for every scale with `0.1 <= scale <= 10` the division `0.1 / scale` of
the tick has a non-zero divisor and the smoothing uniform it writes is a finite
`s` with `0.01 <= s <= 1`; with the uniforms the tick wrote, both smoothstep
calls of the shader have strictly ordered edges, `edge1 - edge0 = 2 * s` is not
zero, and both calls are defined for every sampled distance. -/
theorem tick_smoothing_safe (env : Env) (a : App)
    (hlo : 1 / 10 ≤ a.guiParams.scale) (hhi : a.guiParams.scale ≤ 10) :
    a.guiParams.scale ≠ 0
    ∧ ∃ s : ℚ, (tick env a).mesh.uniforms.smoothing = some s
      ∧ 1 / 100 ≤ s ∧ s ≤ 1
      ∧ (tick env a).mesh.uniforms.buffer - s < (tick env a).mesh.uniforms.buffer + s
      ∧ (tick env a).mesh.uniforms.buffer + (tick env a).mesh.uniforms.outlineSize - s
          < (tick env a).mesh.uniforms.buffer + (tick env a).mesh.uniforms.outlineSize + s
      ∧ (tick env a).mesh.uniforms.buffer + s - ((tick env a).mesh.uniforms.buffer - s) = 2 * s
      ∧ (tick env a).mesh.uniforms.buffer + (tick env a).mesh.uniforms.outlineSize + s
          - ((tick env a).mesh.uniforms.buffer + (tick env a).mesh.uniforms.outlineSize - s)
          = 2 * s
      ∧ 2 * s ≠ 0
      ∧ ∀ d : ℚ,
          (smoothstep ((tick env a).mesh.uniforms.buffer - s)
            ((tick env a).mesh.uniforms.buffer + s) d).isSome = true
          ∧ (smoothstep
              ((tick env a).mesh.uniforms.buffer + (tick env a).mesh.uniforms.outlineSize - s)
              ((tick env a).mesh.uniforms.buffer + (tick env a).mesh.uniforms.outlineSize + s)
              d).isSome = true := by
  have hpos : 0 < a.guiParams.scale := by linarith
  have hne : a.guiParams.scale ≠ 0 := ne_of_gt hpos
  have hs1 : 1 / 100 ≤ 1 / 10 / a.guiParams.scale := by
    rw [le_div_iff₀ hpos]
    linarith
  have hs2 : 1 / 10 / a.guiParams.scale ≤ 1 := by
    rw [div_le_iff₀ hpos]
    linarith
  have hs0 : 0 < 1 / 10 / a.guiParams.scale := by linarith
  refine ⟨hne, 1 / 10 / a.guiParams.scale, ?_, hs1, hs2, by linarith, by linarith, by ring,
    by ring, by linarith, ?_⟩
  · show jsDiv (1 / 10) a.guiParams.scale = _
    exact jsDiv_of_ne_zero _ _ hne
  · intro d
    constructor
    · rw [smoothstep_eq_spec _ _ _ (by linarith)]
      rfl
    · rw [smoothstep_eq_spec _ _ _ (by linarith)]
      rfl

/-- Witness of C10: the panel at scale 2, inside the slider range. -/
theorem tick_smoothing_safe_witness :
    (1 : ℚ) / 10 ≤ sampleApp.guiParams.scale
    ∧ sampleApp.guiParams.scale ≤ 10
    ∧ sampleApp.guiParams.scale ≠ 0
    ∧ ∃ s : ℚ, (tick sampleEnv sampleApp).mesh.uniforms.smoothing = some s
      ∧ 1 / 100 ≤ s ∧ s ≤ 1 := by
  have h := tick_smoothing_safe sampleEnv sampleApp (by norm_num [sampleApp])
    (by norm_num [sampleApp])
  obtain ⟨hne, s, hs, h1, h2, _⟩ := h
  exact ⟨by norm_num [sampleApp], by norm_num [sampleApp], hne, s, hs, h1, h2⟩

/-! ## Font loading and scene construction -/

/-- C3: for every `(error, font)` pair the loader hands to the callback,
`loadFNT` resolves with exactly `font`, whatever `error` is, and is never
rejected; when the load fails and `font` is undefined it resolves with
undefined. -/
theorem loadFNT_resolves_with_font :
    (∀ (error : Option LoadError) (font : Option Font),
      loadFNT (some (error, font)) = .resolved font
      ∧ (∀ error2 : Option LoadError, loadFNT (some (error2, font)) = loadFNT (some (error, font)))
      ∧ ∀ reason : LoadError, loadFNT (some (error, font)) ≠ .rejected reason)
    ∧ ∀ e : LoadError, loadFNT (some (some e, none)) = .resolved none := by
  refine ⟨fun error font => ⟨rfl, fun _ => rfl, ?_⟩, fun _ => rfl⟩
  intro reason h
  cases h

/-- C4, as stated, fails: when the loader reports the error `ENOENT` and no
font, `loadFNT` is not rejected but resolves with undefined, exactly as for a
callback without error, and `init` does call `createTextMesh`, with the
undefined font. -/
theorem init_load_error_not_propagated :
    loadFNT (some (some sampleError, none)) = .resolved none
    ∧ (∀ reason : LoadError, loadFNT (some (some sampleError, none)) ≠ .rejected reason)
    ∧ loadFNT (some (some sampleError, none)) = loadFNT (some (none, none))
    ∧ (init sampleEnv (some (some sampleError, none)) 800 600).createTextMeshCalls
        = [(none, "Lorem ipsum dolor sit amet")]
    ∧ (init sampleEnv (some (some sampleError, none)) 800 600).createTextMeshCalls ≠ [] := by
  have hc : (init sampleEnv (some (some sampleError, none)) 800 600).createTextMeshCalls
      = [(none, "Lorem ipsum dolor sit amet")] :=
    init_calls sampleEnv (some sampleError) none 800 600
  refine ⟨rfl, ?_, rfl, hc, ?_⟩
  · intro reason h
    cases h
  · rw [hc]
    exact List.cons_ne_nil _ _

/-- C4 (amended): for every font-load outcome in which the loader reports an
error, the error is dropped: `loadFNT` resolves with the font argument of the
callback (undefined when there is none) exactly as for a callback without
error, `init` runs exactly as for that callback and calls `createTextMesh`
once with that font; and when the layout provider throws on that font, `init`
is rejected, adds no mesh to the stage and registers no ticker callback. -/
theorem init_on_load_error (env : Env) (e : LoadError) (font : Option Font) (w h : ℚ) :
    loadFNT (some (some e, font)) = .resolved font
    ∧ loadFNT (some (some e, font)) = loadFNT (some (none, font))
    ∧ init env (some (some e, font)) w h = init env (some (none, font)) w h
    ∧ (init env (some (some e, font)) w h).createTextMeshCalls
        = [(font, "Lorem ipsum dolor sit amet")]
    ∧ (init env (some (some e, font)) w h).stage.length
        = (init env (some (none, font)) w h).stage.length
    ∧ (env.createLayout font "Lorem ipsum dolor sit amet" = none →
        (init env (some (some e, font)) w h).stage = []
        ∧ (init env (some (some e, font)) w h).tickerAdded = false
        ∧ (init env (some (some e, font)) w h).status = .rejected) := by
  refine ⟨rfl, rfl, rfl, init_calls env (some e) font w h, rfl, ?_⟩
  intro hl
  have hm := createTextMesh_layout_throws env font _ hl
  unfold init loadFNT
  simp [hm]

/-- Witness of amended C4: the missing-file error with no font, over a layout
provider that throws on an undefined font; `createTextMesh` is called with the
undefined font and no mesh reaches the stage. -/
theorem init_on_load_error_witness :
    sampleEnv.createLayout none "Lorem ipsum dolor sit amet" = none
    ∧ (init sampleEnv (some (some sampleError, none)) 800 600).createTextMeshCalls
        = [(none, "Lorem ipsum dolor sit amet")]
    ∧ (init sampleEnv (some (some sampleError, none)) 800 600).stage = []
    ∧ (init sampleEnv (some (some sampleError, none)) 800 600).tickerAdded = false
    ∧ (init sampleEnv (some (some sampleError, none)) 800 600).status = .rejected :=
  ⟨rfl, (init_on_load_error sampleEnv sampleError none 800 600).2.2.2.1,
   (init_on_load_error sampleEnv sampleError none 800 600).2.2.2.2.2 rfl⟩

/-- C5: for every glyph sequence of length N, `getPositions` yields `8 * N`
numbers and `getUvs` at atlas 512 by 256 without flip succeeds with `8 * N`
numbers; for the empty sequence both are empty; and the `position` and `uv`
buffers of every mesh `createTextMesh` returns are these two sequences for the
glyphs of the layout. -/
theorem geometry_buffer_lengths :
    (∀ glyphs : List GlyphPlacement,
      (getPositions glyphs).length = 8 * glyphs.length
      ∧ ∃ uvs, getUvs glyphs 512 256 false = .ok uvs ∧ uvs.length = 8 * glyphs.length
          ∧ (getPositions glyphs).length = uvs.length)
    ∧ getPositions [] = []
    ∧ getUvs [] 512 256 false = .ok []
    ∧ ∀ (env : Env) (font : Option Font) (text : String) (mesh : Mesh),
        createTextMesh env font text = .ok mesh →
        ∃ glyphs, env.createLayout font text = some glyphs
          ∧ mesh.geometry.position = getPositions glyphs
          ∧ getUvs glyphs 512 256 false = .ok mesh.geometry.uv
          ∧ mesh.geometry.position.length = 8 * glyphs.length
          ∧ mesh.geometry.uv.length = 8 * glyphs.length := by
  refine ⟨fun glyphs => ?_, rfl, rfl, ?_⟩
  · obtain ⟨uvs, h1, h2⟩ := getUvs_atlas_ok glyphs
    exact ⟨getPositions_length glyphs, uvs, h1, h2, by rw [getPositions_length, h2]⟩
  · intro env font text mesh hm
    unfold createTextMesh at hm
    split at hm
    · cases hm
    · rename_i glyphs hl
      obtain ⟨uvs, h1, h2⟩ := getUvs_atlas_ok glyphs
      rw [h1] at hm
      simp only [Except.ok.injEq] at hm
      subst hm
      exact ⟨glyphs, hl, rfl, h1, getPositions_length glyphs, h2⟩

/-- Witness of C5: the one-glyph scenario of the specification; the mesh built
for it has 8 positions and 8 uvs. -/
theorem geometry_buffer_lengths_witness :
    getPositions [sampleGlyph] = [0, 0, 10, 0, 0, 20, 10, 20]
    ∧ ∃ mesh, createTextMesh sampleEnv (some sampleFont) "Lorem ipsum dolor sit amet" = .ok mesh
        ∧ mesh.geometry.position.length = 8 ∧ mesh.geometry.uv.length = 8 := by
  have hm : ∃ mesh, createTextMesh sampleEnv (some sampleFont) "Lorem ipsum dolor sit amet"
      = .ok mesh := by
    simp [createTextMesh, sampleEnv, getUvs]
  obtain ⟨mesh, hm⟩ := hm
  obtain ⟨glyphs, hl, _, _, hp, hu⟩ :=
    geometry_buffer_lengths.2.2.2 sampleEnv (some sampleFont) _ mesh hm
  have hg : glyphs = [sampleGlyph] := by
    have hl2 : some [sampleGlyph] = some glyphs := hl
    exact (Option.some.inj hl2).symm
  subst hg
  refine ⟨?_, mesh, hm, hp, hu⟩
  simp [getPositions, sampleGlyph]

end SdfText
